import Mathlib

/-!
Verification of the `prefect-intel` packaging subsystem: serializers
(`packaging/serializers.py`), environment descriptors and detection
(`packaging/environments.py`), the execution dispatcher
(`packaging/execution.py` and the monolithic `packaging.py`), and the worker
protocol (`packaging/worker.py`).

Python values are shallowly embedded: `bytes` become `List Nat` (each element
a byte value), `str` becomes `List Char`, exceptions become an inductive
`PyExc` with `Except PyExc _` results, and calls into external libraries
(cloudpickle, the `json` module, `exec`, `importlib`, subprocesses) are
parameters of the definitions, packaged in small structures.  `base64`
(`encodebytes` / `decodebytes`) is modelled concretely because the worker
wire format depends on its line-chunking behaviour.
-/

set_option autoImplicit false

namespace PrefectIntel

/-- Python `str`, modelled as its list of characters. -/
abbrev Str := List Char

/-- Python `bytes`, modelled as the list of byte values. -/
abbrev Bytes := List Nat

/-- Helper to write `Str` literals. -/
def str (s : String) : Str := s.data

/-- Python exceptions relevant to the packaging subsystem.  `pickleError`
models the repository's `PickleError` wrapper (its generated message, which
interpolates the repr of the offending object, is elided); `userExc` stands
for arbitrary exception objects raised by packaged user code. -/
inductive PyExc where
  | valueError (msg : Str)
  | keyError (key : Str)
  | typeError (msg : Str)
  | runtimeError (msg : Str)
  | importError (name : Str)
  | attributeError (name : Str)
  | jsonDecodeError
  | systemExit (code : Int)
  | keyboardInterrupt
  | userExc (tag : Str)
  | pickleError (cause : PyExc)

/-- JSON values, the results of `json.loads` / inputs of `json.dumps`.
Objects are association lists in insertion order. -/
inductive JsonValue where
  | jNull
  | jBool (b : Bool)
  | jNum (n : Int)
  | jStr (s : Str)
  | jArr (items : List JsonValue)
  | jObj (fields : List (Str × JsonValue))

/-- First-match association-list lookup, the semantics of `d[k]` for the
string-keyed dicts produced by `json.loads` (which never holds duplicate
keys). -/
def lookupD {α : Type} : List (Str × α) → Str → Option α
  | [], _ => none
  | (k, v) :: rest, k0 => if k = k0 then some v else lookupD rest k0

-- base64 ------------------------------------------------------------------
-- Concrete model of `base64.encodebytes` / `base64.decodebytes`.
-- `encodebytes` emits one 76-character line (plus a `\n`, byte 10) per
-- 57-byte chunk of input; `decodebytes` (binascii `a2b_base64`) discards
-- characters outside the alphabet and decodes 4-character quanta, a `=`
-- (byte 61) padding the final quantum.

/-- The base64 alphabet: sextet to character byte. -/
def b64Char (n : Nat) : Nat :=
  if n < 26 then 65 + n
  else if n < 52 then 97 + (n - 26)
  else if n < 62 then 48 + (n - 52)
  else if n = 62 then 43
  else 47

/-- Character byte back to sextet. -/
def b64DecChar (c : Nat) : Nat :=
  if 65 ≤ c ∧ c ≤ 90 then c - 65
  else if 97 ≤ c ∧ c ≤ 122 then (c - 97) + 26
  else if 48 ≤ c ∧ c ≤ 57 then (c - 48) + 52
  else if c = 43 then 62
  else if c = 47 then 63
  else 0

/-- Is the byte in the base64 alphabet or the `=` pad?  (Everything else,
newlines included, is discarded by `decodebytes`.) -/
def isB64OrPad (c : Nat) : Bool :=
  (65 ≤ c && c ≤ 90) || (97 ≤ c && c ≤ 122) || (48 ≤ c && c ≤ 57) ||
    c == 43 || c == 47 || c == 61

/-- Plain (unchunked) base64 of a byte string, with `=` padding. -/
def b64encode : Bytes → Bytes
  | a :: b :: c :: rest =>
    b64Char (a / 4) :: b64Char (a % 4 * 16 + b / 16) ::
      b64Char (b % 16 * 4 + c / 64) :: b64Char (c % 64) :: b64encode rest
  | [a, b] => [b64Char (a / 4), b64Char (a % 4 * 16 + b / 16), b64Char (b % 16 * 4), 61]
  | [a] => [b64Char (a / 4), b64Char (a % 4 * 16), 61, 61]
  | [] => []

/-- Decode a stream of alphabet/pad bytes, 4-character quanta at a time. -/
def b64decode : Bytes → Bytes
  | c1 :: c2 :: c3 :: c4 :: rest =>
    if c4 = 61 then
      if c3 = 61 then [b64DecChar c1 * 4 + b64DecChar c2 / 16]
      else [b64DecChar c1 * 4 + b64DecChar c2 / 16,
            b64DecChar c2 % 16 * 16 + b64DecChar c3 / 4]
    else
      (b64DecChar c1 * 4 + b64DecChar c2 / 16) ::
        (b64DecChar c2 % 16 * 16 + b64DecChar c3 / 4) ::
        (b64DecChar c3 % 4 * 64 + b64DecChar c4) :: b64decode rest
  | _ => []

/-- `base64.encodebytes`: base64 in newline-terminated lines of 57 input
bytes (76 output characters) each. -/
def encodebytes : Bytes → Bytes
  | [] => []
  | b :: bs => b64encode ((b :: bs).take 57) ++ 10 :: encodebytes ((b :: bs).drop 57)
termination_by bs => bs.length
decreasing_by
  simp only [List.length_drop, List.length_cons]
  omega

/-- `base64.decodebytes`: drop non-alphabet bytes and decode. -/
def decodebytes (s : Bytes) : Bytes :=
  b64decode (s.filter isB64OrPad)

theorem b64DecChar_b64Char : ∀ n, n < 64 → b64DecChar (b64Char n) = n := by decide

theorem b64Char_ne_pad : ∀ n, n < 64 → b64Char n ≠ 61 := by decide

theorem isB64OrPad_b64Char : ∀ n, n < 64 → isB64OrPad (b64Char n) = true := by decide

theorem b64Char_ne_newline : ∀ n, n < 64 → b64Char n ≠ 10 := by decide

theorem b64encode_append : ∀ (xs ys : Bytes), xs.length % 3 = 0 →
    b64encode (xs ++ ys) = b64encode xs ++ b64encode ys
  | [], _, _ => by simp [b64encode]
  | [_], _, h => by simp at h
  | [_, _], _, h => by simp at h
  | a :: b :: c :: rest, ys, h => by
    have h3 : rest.length % 3 = 0 := by simp [List.length_cons] at h; omega
    have ih := b64encode_append rest ys h3
    simp [b64encode, ih]

theorem b64encode_mem : ∀ (bs : Bytes), (∀ x ∈ bs, x < 256) →
    ∀ y ∈ b64encode bs, isB64OrPad y = true
  | [], _, y, hy => by simp [b64encode] at hy
  | [a], h, y, hy => by
    have ha : a < 256 := h a (by simp)
    simp [b64encode] at hy
    rcases hy with rfl | rfl | rfl
    · exact isB64OrPad_b64Char _ (by omega)
    · exact isB64OrPad_b64Char _ (by omega)
    · decide
  | [a, b], h, y, hy => by
    have ha : a < 256 := h a (by simp)
    have hb : b < 256 := h b (by simp)
    simp [b64encode] at hy
    rcases hy with rfl | rfl | rfl | rfl
    · exact isB64OrPad_b64Char _ (by omega)
    · exact isB64OrPad_b64Char _ (by omega)
    · exact isB64OrPad_b64Char _ (by omega)
    · decide
  | a :: b :: c :: rest, h, y, hy => by
    have ha : a < 256 := h a (by simp)
    have hb : b < 256 := h b (by simp)
    have hc : c < 256 := h c (by simp)
    simp [b64encode] at hy
    rcases hy with rfl | rfl | rfl | rfl | hy'
    · exact isB64OrPad_b64Char _ (by omega)
    · exact isB64OrPad_b64Char _ (by omega)
    · exact isB64OrPad_b64Char _ (by omega)
    · exact isB64OrPad_b64Char _ (by omega)
    · exact b64encode_mem rest (fun x hx => h x (by simp [hx])) y hy'

theorem b64decode_b64encode : ∀ (bs : Bytes), (∀ x ∈ bs, x < 256) →
    b64decode (b64encode bs) = bs
  | [], _ => rfl
  | [a], h => by
    have ha : a < 256 := h a (by simp)
    simp [b64encode, b64decode,
      b64DecChar_b64Char _ (show a / 4 < 64 by omega),
      b64DecChar_b64Char _ (show a % 4 * 16 < 64 by omega)]
    omega
  | [a, b], h => by
    have ha : a < 256 := h a (by simp)
    have hb : b < 256 := h b (by simp)
    simp [b64encode, b64decode,
      b64Char_ne_pad _ (show b % 16 * 4 < 64 by omega),
      b64DecChar_b64Char _ (show a / 4 < 64 by omega),
      b64DecChar_b64Char _ (show a % 4 * 16 + b / 16 < 64 by omega),
      b64DecChar_b64Char _ (show b % 16 * 4 < 64 by omega)]
    omega
  | a :: b :: c :: rest, h => by
    have ha : a < 256 := h a (by simp)
    have hb : b < 256 := h b (by simp)
    have hc : c < 256 := h c (by simp)
    have ih := b64decode_b64encode rest (fun x hx => h x (by simp [hx]))
    simp [b64encode, b64decode,
      b64Char_ne_pad _ (show c % 64 < 64 by omega),
      b64DecChar_b64Char _ (show a / 4 < 64 by omega),
      b64DecChar_b64Char _ (show a % 4 * 16 + b / 16 < 64 by omega),
      b64DecChar_b64Char _ (show b % 16 * 4 + c / 64 < 64 by omega),
      b64DecChar_b64Char _ (show c % 64 < 64 by omega), ih]
    omega

theorem encodebytes_filter : ∀ (bs : Bytes), (∀ x ∈ bs, x < 256) →
    (encodebytes bs).filter isB64OrPad = b64encode bs
  | [], _ => by simp [encodebytes, b64encode]
  | b :: bs, h => by
    have htake : ∀ x ∈ (b :: bs).take 57, x < 256 :=
      fun x hx => h x (List.take_subset 57 (b :: bs) hx)
    have hdrop : ∀ x ∈ (b :: bs).drop 57, x < 256 :=
      fun x hx => h x (List.drop_subset 57 (b :: bs) hx)
    have ih := encodebytes_filter ((b :: bs).drop 57) hdrop
    rw [encodebytes, List.filter_append,
      List.filter_eq_self.mpr (b64encode_mem _ htake), List.filter_cons]
    simp only [show isB64OrPad 10 = false by decide, ih, Bool.false_eq_true,
      if_false]
    by_cases hlen : (b :: bs).length ≤ 57
    · rw [List.drop_eq_nil_of_le hlen, List.take_of_length_le hlen]
      simp [b64encode]
    · have h57 : ((b :: bs).take 57).length % 3 = 0 := by
        rw [List.length_take]
        omega
      rw [← b64encode_append _ _ h57, List.take_append_drop]
termination_by bs => bs.length
decreasing_by
  simp only [List.length_drop, List.length_cons]
  omega

theorem encodebytes_count : ∀ (bs : Bytes), (∀ x ∈ bs, x < 256) →
    (encodebytes bs).count 10 = (bs.length + 56) / 57
  | [], _ => by simp [encodebytes]
  | b :: bs, h => by
    have htake : ∀ x ∈ (b :: bs).take 57, x < 256 :=
      fun x hx => h x (List.take_subset 57 (b :: bs) hx)
    have hdrop : ∀ x ∈ (b :: bs).drop 57, x < 256 :=
      fun x hx => h x (List.drop_subset 57 (b :: bs) hx)
    have h1 : (b64encode ((b :: bs).take 57)).count 10 = 0 :=
      List.count_eq_zero.mpr (fun hmem => by
        have h10 := b64encode_mem _ htake 10 hmem
        exact absurd h10 (by decide))
    have ih := encodebytes_count ((b :: bs).drop 57) hdrop
    rw [encodebytes, List.count_append, h1, List.count_cons, ih]
    simp only [List.length_drop, List.length_cons, beq_self_eq_true, if_true]
    omega
termination_by bs => bs.length
decreasing_by
  simp only [List.length_drop, List.length_cons]
  omega

/-- The base64 transport round-trip: `decodebytes (encodebytes b) = b` for
byte-valued input. -/
theorem decodebytes_encodebytes (bs : Bytes) (h : ∀ x ∈ bs, x < 256) :
    decodebytes (encodebytes bs) = bs := by
  unfold decodebytes
  rw [encodebytes_filter bs h, b64decode_b64encode bs h]

-- Objects ------------------------------------------------------------------

/-- A Python function as the serializers see it: its defining module, its
qualified name, its plain `__name__`, the source text `inspect.getsource`
would return, and its call behaviour on two arguments (the spec's round-trip
probe calls with `(1, 2)`). -/
structure PyFunc where
  module : Str
  qualname : Str
  name : Str
  source : Str
  call : Int → Int → Int

/-- A Python module object, identified by its name. -/
structure PyModule where
  modName : Str

/-- Python objects that serializer decode paths can produce. -/
inductive PyObj where
  | func (f : PyFunc)
  | module (m : PyModule)

/-- An external pickle library (`cloudpickle` by default): `dumps`/`loads`
over some object type.  `loads` may raise. -/
structure Pickler (α : Type) where
  dumps : α → Bytes
  loads : Bytes → Except PyExc α

-- PickleSerializer (packaging/serializers.py) ------------------------------

/-- `PickleSerializer.dumps`: pickle then wrap in `base64.encodebytes`. -/
def PickleSerializer.dumps {α : Type} (P : Pickler α) (obj : α) : Bytes :=
  encodebytes (P.dumps obj)

/-- `PickleSerializer.loads`: `base64.decodebytes` then unpickle. -/
def PickleSerializer.loads {α : Type} (P : Pickler α) (blob : Bytes) : Except PyExc α :=
  P.loads (decodebytes blob)

-- SourceSerializer (packaging/serializers.py) ------------------------------

/-- The external `json` module: `dumps` renders a value, `loads` parses a
blob (`none` models a raised `JSONDecodeError`). -/
structure JsonLib where
  dumps : JsonValue → Str
  parse : Str → Option JsonValue

/-- The `exec` primitive: running a source text yields the resulting
`exec_globals` and `exec_locals` namespaces (or raises). -/
structure ExecLib where
  exec : Str → Except PyExc (List (Str × PyObj) × List (Str × PyObj))

/-- Python dict merge, the semantics of the literal ``dict(g, l merged
second)`` built by unpacking two dicts: entries of the second override the
first, first-dict insertion order kept for keys only in the first. -/
def dictMerge {α : Type} (g l : List (Str × α)) : List (Str × α) :=
  g.filter (fun kv => !((l.map Prod.fst).contains kv.1)) ++ l

/-- The `ValueError` message for a malformed source envelope (the code also
interpolates the offending document; the interpolation is elided here). -/
def invalidDataMsg : Str :=
  str "Invalid serialized data. Expected dictionary with keys source and symbol_name."

/-- `set(document.keys()) == set of source and symbol_name`, on the key list
of the decoded JSON object. -/
def keysSetEq (keys : List Str) : Bool :=
  keys.all (fun k => k == str "source" || k == str "symbol_name") &&
    keys.contains (str "source") && keys.contains (str "symbol_name")

/-- `SourceSerializer.dumps`: a JSON envelope of the source text and the
symbol name. -/
def SourceSerializer.dumps (J : JsonLib) (f : PyFunc) : Str :=
  J.dumps (.jObj [(str "source", .jStr f.source), (str "symbol_name", .jStr f.name)])

/-- `SourceSerializer.loads`: parse the JSON blob, require a dict whose key
set is exactly the two envelope keys (else `ValueError`), `exec` the source,
merge globals and locals, and subscript the merged namespace with the symbol
name (a missing symbol is a `KeyError`, as in Python dict subscription).
The inner `none`/non-string fallbacks are unreachable once the key-set check
passed, except non-string values, which model the `TypeError`/`KeyError`
Python would raise for them. -/
def SourceSerializer.loads (J : JsonLib) (E : ExecLib) (blob : Str) : Except PyExc PyObj :=
  match J.parse blob with
  | none => .error .jsonDecodeError
  | some (.jObj kvs) =>
    if keysSetEq (kvs.map Prod.fst) then
      match lookupD kvs (str "source") with
      | some (.jStr src) =>
        match E.exec src with
        | .error e => .error e
        | .ok (g, l) =>
          match lookupD kvs (str "symbol_name") with
          | some (.jStr n) =>
            match lookupD (dictMerge g l) n with
            | some v => .ok v
            | none => .error (.keyError n)
          | _ => .error (.keyError (str "symbol_name"))
      | some _ => .error (.typeError (str "exec arg 1 must be a string"))
      | none => .error (.keyError (str "source"))
    else .error (.valueError invalidDataMsg)
  | some _ => .error (.valueError invalidDataMsg)

-- ImportSerializer (packaging/serializers.py, utilities.py) ----------------

/-- The import machinery: `importlib.import_module` (`none` models a raised
`ImportError`) and attribute lookup on a module (`none` models a missing
attribute). -/
structure ImportLib where
  importModule : Str → Option PyModule
  getattr : PyModule → Str → Option PyObj

/-- `to_qualified_name`: `obj.__module__ + "." + obj.__qualname__`. -/
def to_qualified_name (f : PyFunc) : Str := f.module ++ str "." ++ f.qualname

/-- `name.rsplit(".", 1)`: split at the last dot, `none` when the name holds
no dot (the `"." not in name` test). -/
def rsplitDot (name : Str) : Option (Str × Str) :=
  match name.reverse.dropWhile (fun c => c != '.') with
  | [] => none
  | _ :: rest =>
    some (rest.reverse, (name.reverse.takeWhile (fun c => c != '.')).reverse)

/-- `from_qualified_name` (`packaging/utilities.py`): try importing the whole
name; on `ImportError` re-raise if the name has no dot, otherwise import the
part before the last dot and take the attribute after it. -/
def from_qualified_name (I : ImportLib) (name : Str) : Except PyExc PyObj :=
  match I.importModule name with
  | some m => .ok (.module m)
  | none =>
    match rsplitDot name with
    | none => .error (.importError name)
    | some (modName, attrName) =>
      match I.importModule modName with
      | none => .error (.importError modName)
      | some m =>
        match I.getattr m attrName with
        | some v => .ok v
        | none => .error (.attributeError attrName)

/-- `str.encode()` for the ASCII qualified names the serializer produces. -/
def strToBytes (s : Str) : Bytes := s.map Char.toNat

/-- `bytes.decode()`; non-ASCII bytes are out of the model and map to
`none` (a raised `UnicodeDecodeError`). -/
def bytesToStr : Bytes → Option Str
  | [] => some []
  | n :: rest =>
    if n < 128 then
      match bytesToStr rest with
      | some s => some (Char.ofNat n :: s)
      | none => none
    else none

/-- `ImportSerializer.dumps`: the encoded qualified name. -/
def ImportSerializer.dumps (f : PyFunc) : Bytes := strToBytes (to_qualified_name f)

/-- `ImportSerializer.loads`: decode the name and resolve it. -/
def ImportSerializer.loads (I : ImportLib) (blob : Bytes) : Except PyExc PyObj :=
  match bytesToStr blob with
  | none => .error (.valueError (str "decode failed"))
  | some name => from_qualified_name I name

-- Helper lemmas for the serializer round trips -----------------------------

theorem takeWhile_append_cons {α : Type} (p : α → Bool) (xs : List α) (y : α)
    (ys : List α) (hx : ∀ x ∈ xs, p x = true) (hy : p y = false) :
    (xs ++ y :: ys).takeWhile p = xs := by
  induction xs with
  | nil => simp [List.takeWhile_cons, hy]
  | cons a as ih =>
    have ha : p a = true := hx a (by simp)
    simp [List.takeWhile_cons, ha, ih (fun x hmem => hx x (by simp [hmem]))]

theorem dropWhile_append_cons {α : Type} (p : α → Bool) (xs : List α) (y : α)
    (ys : List α) (hx : ∀ x ∈ xs, p x = true) (hy : p y = false) :
    (xs ++ y :: ys).dropWhile p = y :: ys := by
  induction xs with
  | nil => simp [List.dropWhile_cons, hy]
  | cons a as ih =>
    have ha : p a = true := hx a (by simp)
    simp [List.dropWhile_cons, ha, ih (fun x hmem => hx x (by simp [hmem]))]

/-- `rsplit(".", 1)` on `module ++ "." ++ attr` recovers the two parts when
the attribute part holds no dot. -/
theorem rsplitDot_append (m q : Str) (hq : ∀ c ∈ q, (c != '.') = true) :
    rsplitDot (m ++ '.' :: q) = some (m, q) := by
  have hrev : (m ++ '.' :: q).reverse = q.reverse ++ '.' :: m.reverse := by
    simp
  have hqr : ∀ c ∈ q.reverse, (c != '.') = true :=
    fun c hc => hq c (List.mem_reverse.mp hc)
  unfold rsplitDot
  rw [hrev, dropWhile_append_cons _ _ _ _ hqr (by decide),
    takeWhile_append_cons _ _ _ _ hqr (by decide)]
  simp

theorem bytesToStr_strToBytes (s : Str) (h : ∀ c ∈ s, c.toNat < 128) :
    bytesToStr (strToBytes s) = some s := by
  induction s with
  | nil => rfl
  | cons c cs ih =>
    have hc : c.toNat < 128 := h c (by simp)
    have ihh := ih (fun x hx => h x (by simp [hx]))
    simp only [strToBytes, List.map_cons, bytesToStr, hc, if_true]
    rw [show List.map Char.toNat cs = strToBytes cs from rfl, ihh,
      Char.ofNat_toNat]

-- Claim C1 -----------------------------------------------------------------

/-- C1: the serializer round-trip law.  For a function its pickler
round-trips (picklable), whose source re-executes to an equivalent binding
of its name (retrievable, self-contained), and whose qualified name resolves
by import to an equivalent function (importable), `loads (dumps f)` under
`PickleSerializer`, `SourceSerializer` and `ImportSerializer` respectively
yields a callable whose value at `(1, 2)` equals `f (1, 2)`. -/
theorem claim_C1 (P : Pickler PyFunc) (J : JsonLib) (E : ExecLib)
    (I : ImportLib) (f g2 g3 : PyFunc) (m : PyModule)
    (hPbytes : ∀ x ∈ P.dumps f, x < 256)
    (hP : P.loads (P.dumps f) = .ok f)
    (hJ : J.parse (SourceSerializer.dumps J f) =
      some (.jObj [(str "source", .jStr f.source),
                   (str "symbol_name", .jStr f.name)]))
    (hE : ∃ g l, E.exec f.source = .ok (g, l) ∧
      lookupD (dictMerge g l) f.name = some (.func g2))
    (hg2 : g2.call = f.call)
    (hascii : ∀ c ∈ to_qualified_name f, c.toNat < 128)
    (hI1 : I.importModule (to_qualified_name f) = none)
    (hq : ∀ c ∈ f.qualname, (c != '.') = true)
    (hI2 : I.importModule f.module = some m)
    (hI3 : I.getattr m f.qualname = some (.func g3))
    (hg3 : g3.call = f.call) :
    (∃ g1, PickleSerializer.loads P (PickleSerializer.dumps P f) = .ok g1 ∧
      g1.call 1 2 = f.call 1 2) ∧
    (SourceSerializer.loads J E (SourceSerializer.dumps J f) = .ok (.func g2) ∧
      g2.call 1 2 = f.call 1 2) ∧
    (ImportSerializer.loads I (ImportSerializer.dumps f) = .ok (.func g3) ∧
      g3.call 1 2 = f.call 1 2) := by
  refine ⟨⟨f, ?_, rfl⟩, ⟨?_, by rw [hg2]⟩, ⟨?_, by rw [hg3]⟩⟩
  · rw [PickleSerializer.loads, PickleSerializer.dumps,
      decodebytes_encodebytes _ hPbytes, hP]
  · obtain ⟨g, l, hexec, hlook⟩ := hE
    rw [SourceSerializer.loads, hJ]
    have hkeys : keysSetEq [str "source", str "symbol_name"] = true := by decide
    have hne : ¬(str "source" = str "symbol_name") := by decide
    simp only [List.map_cons, List.map_nil]
    simp [hkeys, lookupD, hne, hexec, hlook]
  · rw [ImportSerializer.loads, ImportSerializer.dumps,
      bytesToStr_strToBytes _ hascii]
    have hsplit : rsplitDot (to_qualified_name f) = some (f.module, f.qualname) := by
      rw [show to_qualified_name f = f.module ++ '.' :: f.qualname by
        simp [to_qualified_name, str]]
      exact rsplitDot_append _ _ hq
    simp only [from_qualified_name, hI1, hsplit, hI2, hI3]

/-- The function used by the concrete witnesses: a two-argument addition. -/
def f0 : PyFunc where
  module := str "m"
  qualname := str "f"
  name := str "f"
  source := str "def f(a, b): return a + b"
  call := fun a b => a + b

/-- A concrete pickler that round-trips `f0`. -/
def toyPickler : Pickler PyFunc where
  dumps := fun _ => [0]
  loads := fun b => if b = [0] then .ok f0 else .error .jsonDecodeError

/-- The JSON envelope of `f0`. -/
def envelope0 : JsonValue :=
  .jObj [(str "source", .jStr f0.source), (str "symbol_name", .jStr f0.name)]

/-- A concrete json library that round-trips `envelope0`. -/
def toyJson : JsonLib where
  dumps := fun _ => ['j']
  parse := fun s => if s = ['j'] then some envelope0 else none

/-- A concrete exec that binds `f` when running the source of `f0`. -/
def toyExec : ExecLib where
  exec := fun s =>
    if s = f0.source then .ok ([], [(str "f", .func f0)])
    else .error .jsonDecodeError

/-- A concrete import system exposing `f0` as `m.f`. -/
def toyImport : ImportLib where
  importModule := fun n => if n = str "m" then some ⟨str "m"⟩ else none
  getattr := fun _ a => if a = str "f" then some (.func f0) else none

-- Claims C6 and C9 ---------------------------------------------------------

/-- A JSON envelope whose source defines `x` but whose symbol name is `g`. -/
def badEnvelope : JsonValue :=
  .jObj [(str "source", .jStr (str "x = 1")), (str "symbol_name", .jStr (str "g"))]

/-- A concrete json library for the C6 instances: blob `k` parses to
`badEnvelope`, blob `l` to an envelope missing `symbol_name`. -/
def c6Json : JsonLib where
  dumps := fun _ => ['k']
  parse := fun s =>
    if s = ['k'] then some badEnvelope
    else if s = ['l'] then some (.jObj [(str "source", .jStr (str "x = 1"))])
    else none

/-- A concrete exec for the C6 instances: running `x = 1` binds only `x`. -/
def c6Exec : ExecLib where
  exec := fun s =>
    if s = str "x = 1" then .ok ([], [(str "x", .func f0)])
    else .error .jsonDecodeError

/-- C6 counterexample: a well-formed envelope whose source executes without
defining the named symbol makes `SourceSerializer.loads` raise the dict
lookup `KeyError`, which is not the `ValueError` validation error the claim
names. -/
theorem claim_C6_counterexample :
    SourceSerializer.loads c6Json c6Exec ['k'] = .error (.keyError (str "g")) ∧
    ∀ msg, PyExc.keyError (str "g") ≠ PyExc.valueError msg := by
  refine ⟨rfl, fun msg h => ?_⟩
  exact PyExc.noConfusion h

/-- C6 (amended): an envelope whose payload dictionary misses `source` or
`symbol_name` raises the `ValueError` validation error; an envelope whose
source executes without defining the named symbol raises an explicit
`KeyError` from the symbol lookup (not the `ValueError`), never returning
silently. -/
theorem claim_C6_amended (J : JsonLib) (E : ExecLib) (blob : Str)
    (kvs : List (Str × JsonValue)) :
    (J.parse blob = some (.jObj kvs) →
      ((kvs.map Prod.fst).contains (str "source") = false ∨
       (kvs.map Prod.fst).contains (str "symbol_name") = false) →
      SourceSerializer.loads J E blob = .error (.valueError invalidDataMsg)) ∧
    (∀ src g l n, J.parse blob = some (.jObj kvs) →
      keysSetEq (kvs.map Prod.fst) = true →
      lookupD kvs (str "source") = some (.jStr src) →
      E.exec src = .ok (g, l) →
      lookupD kvs (str "symbol_name") = some (.jStr n) →
      lookupD (dictMerge g l) n = none →
      SourceSerializer.loads J E blob = .error (.keyError n)) := by
  constructor
  · intro hparse hmiss
    have hkeys : keysSetEq (kvs.map Prod.fst) = false := by
      rcases hmiss with hm | hm <;>
        simp only [keysSetEq, hm, Bool.and_false, Bool.false_and]
    simp [SourceSerializer.loads, hparse, hkeys]
  · intro src g l n hparse hkeys hsrc hexec hsym hlook
    simp only [SourceSerializer.loads, hparse, hkeys, if_true, hsrc, hexec,
      hsym, hlook]

/-- Witness for the amended C6 at the concrete instances. -/
theorem claim_C6_amended_witness :
    SourceSerializer.loads c6Json c6Exec ['l'] =
      .error (.valueError invalidDataMsg) ∧
    SourceSerializer.loads c6Json c6Exec ['k'] = .error (.keyError (str "g")) :=
  ⟨(claim_C6_amended c6Json c6Exec ['l']
      [(str "source", .jStr (str "x = 1"))]).1 rfl (Or.inr (by decide)),
   (claim_C6_amended c6Json c6Exec ['k']
      [(str "source", .jStr (str "x = 1")),
       (str "symbol_name", .jStr (str "g"))]).2
      (str "x = 1") [] [(str "x", .func f0)] (str "g")
      rfl (by decide) rfl rfl rfl rfl⟩

/-- C9: `SourceSerializer.loads` accepts only payloads that are dictionaries
with key set exactly the two envelope keys: a non-dictionary payload, and a
dictionary payload carrying both required keys plus an extra key, both raise
the `ValueError` validation error. -/
theorem claim_C9 (J : JsonLib) (E : ExecLib) (blob : Str) :
    (∀ v, J.parse blob = some v → (∀ kvs, v ≠ .jObj kvs) →
      SourceSerializer.loads J E blob = .error (.valueError invalidDataMsg)) ∧
    (∀ kvs k, J.parse blob = some (.jObj kvs) →
      (kvs.map Prod.fst).contains (str "source") = true →
      (kvs.map Prod.fst).contains (str "symbol_name") = true →
      k ∈ kvs.map Prod.fst → k ≠ str "source" → k ≠ str "symbol_name" →
      SourceSerializer.loads J E blob = .error (.valueError invalidDataMsg)) := by
  constructor
  · intro v hparse hnot
    cases v with
    | jObj kvs => exact absurd rfl (hnot kvs)
    | jNull => simp [SourceSerializer.loads, hparse]
    | jBool b => simp [SourceSerializer.loads, hparse]
    | jNum n => simp [SourceSerializer.loads, hparse]
    | jStr s => simp [SourceSerializer.loads, hparse]
    | jArr items => simp [SourceSerializer.loads, hparse]
  · intro kvs k hparse _ _ hk hk1 hk2
    have hkeys : keysSetEq (kvs.map Prod.fst) = false := by
      have hall : (kvs.map Prod.fst).all
          (fun k0 => k0 == str "source" || k0 == str "symbol_name") = false := by
        rw [List.all_eq_false]
        exact ⟨k, hk, by simp [hk1, hk2]⟩
      simp only [keysSetEq, hall, Bool.false_and]
    simp [SourceSerializer.loads, hparse, hkeys]

/-- A concrete json library for the C9 witness: blob `a` parses to a number,
blob `b` to a dictionary with an extra key. -/
def c9Json : JsonLib where
  dumps := fun _ => ['a']
  parse := fun s =>
    if s = ['a'] then some (.jNum 3)
    else if s = ['b'] then
      some (.jObj [(str "source", .jStr (str "x = 1")),
                   (str "symbol_name", .jStr (str "x")),
                   (str "extra", .jNull)])
    else none

/-- An exec that always fails; the C9 paths never reach it. -/
def noExec : ExecLib where
  exec := fun _ => .error .jsonDecodeError

/-- Witness for C9 at the concrete instances. -/
theorem claim_C9_witness :
    SourceSerializer.loads c9Json noExec ['a'] =
      .error (.valueError invalidDataMsg) ∧
    SourceSerializer.loads c9Json noExec ['b'] =
      .error (.valueError invalidDataMsg) :=
  ⟨(claim_C9 c9Json noExec ['a']).1 (.jNum 3) rfl (fun kvs h => by cases h),
   (claim_C9 c9Json noExec ['b']).2
      [(str "source", .jStr (str "x = 1")),
       (str "symbol_name", .jStr (str "x")),
       (str "extra", .jNull)] (str "extra")
      rfl (by decide) (by decide) (by simp) (by decide) (by decide)⟩

/-- Witness for C1 at the concrete instances. -/
theorem claim_C1_witness :
    (∃ g1, PickleSerializer.loads toyPickler (PickleSerializer.dumps toyPickler f0) =
      .ok g1 ∧ g1.call 1 2 = f0.call 1 2) ∧
    (SourceSerializer.loads toyJson toyExec (SourceSerializer.dumps toyJson f0) =
      .ok (.func f0) ∧ f0.call 1 2 = f0.call 1 2) ∧
    (ImportSerializer.loads toyImport (ImportSerializer.dumps f0) =
      .ok (.func f0) ∧ f0.call 1 2 = f0.call 1 2) :=
  claim_C1 toyPickler toyJson toyExec toyImport f0 f0 f0 ⟨str "m"⟩
    (by decide) rfl rfl
    ⟨[], [(str "f", .func f0)], rfl, rfl⟩
    rfl (by decide) rfl (by decide) rfl rfl rfl

-- Execution dispatch (packaging/execution.py and packaging.py) -------------

/-- Call arguments: positional `*args` and keyword `**kwargs`. -/
structure Args where
  positional : List JsonValue
  keyword : List (Str × JsonValue)

/-- The behaviour of a `PythonEnvironment` descriptor as the dispatcher
consumes it: each predicate or command may return a value or raise. -/
structure EnvBehavior where
  is_active : Except PyExc Bool
  is_available : Except PyExc Bool
  manager_available : Except PyExc Bool
  python_command : Except PyExc (List Str)
  python_variables : Except PyExc (List (Str × Str))

/-- A `PythonCallableDocument` (packaging/abc.py): its JSON rendering used
for transport, and its `to_callable` behaviour
(`self.serializer.loads(self.content)`, which may raise). -/
structure PyCallableDocument (α : Type) where
  json : Str
  to_callable : Except PyExc (Args → Except PyExc α)

/-- Abstraction of `run_in_new_worker` composed with worker-response
handling: spawn one subprocess from a python command, a call payload and
process variables, yielding the worker's result (a value, or the worker's
exception re-raised). -/
structure WorkerRunner (α : Type) where
  run : List Str → Str × Args → List (Str × Str) → Except PyExc α

/-- Message raised on the needs-create path. -/
def notYetMsg : Str := str "Functions cannot yet be run in new environments."

/-- Message raised when neither environment nor tooling exists. -/
def neitherMsg : Str :=
  str "The required environment does not exist and the tooling to create it is not available."

/-- `run_in_environment` (packaging/execution.py): check `is_active`, then
`is_available`, then `manager_available`, first match winning.  The result
is paired with the number of worker subprocesses spawned. -/
def run_in_environment {α : Type} (R : WorkerRunner α) (env : EnvBehavior)
    (doc : PyCallableDocument α) (args : Args) : Except PyExc α × Nat :=
  match env.is_active with
  | .error e => (.error e, 0)
  | .ok true =>
    match doc.to_callable with
    | .error e => (.error e, 0)
    | .ok fn => (fn args, 0)
  | .ok false =>
    match env.is_available with
    | .error e => (.error e, 0)
    | .ok true =>
      match env.python_command with
      | .error e => (.error e, 0)
      | .ok cmd =>
        match env.python_variables with
        | .error e => (.error e, 0)
        | .ok vars => (R.run cmd (doc.json, args) vars, 1)
    | .ok false =>
      match env.manager_available with
      | .error e => (.error e, 0)
      | .ok true => (.error (.runtimeError notYetMsg), 0)
      | .ok false => (.error (.runtimeError neitherMsg), 0)

/-- C2: `run_in_environment` checks `is_active`, `is_available`,
`manager_available` in that fixed order, first match winning: active runs
the decoded callable in process (no subprocess), available spawns exactly
one worker and returns its result, manager-available raises the
not-yet-supported error without creating anything, and otherwise the
neither-exists error is raised. -/
theorem claim_C2 {α : Type} (R : WorkerRunner α) (env : EnvBehavior)
    (doc : PyCallableDocument α) (args : Args) :
    (∀ fn, env.is_active = .ok true → doc.to_callable = .ok fn →
      run_in_environment R env doc args = (fn args, 0)) ∧
    (∀ cmd vars, env.is_active = .ok false → env.is_available = .ok true →
      env.python_command = .ok cmd → env.python_variables = .ok vars →
      run_in_environment R env doc args = (R.run cmd (doc.json, args) vars, 1)) ∧
    (env.is_active = .ok false → env.is_available = .ok false →
      env.manager_available = .ok true →
      run_in_environment R env doc args = (.error (.runtimeError notYetMsg), 0)) ∧
    (env.is_active = .ok false → env.is_available = .ok false →
      env.manager_available = .ok false →
      run_in_environment R env doc args = (.error (.runtimeError neitherMsg), 0)) := by
  refine ⟨?_, ?_, ?_, ?_⟩ <;> intros <;> simp_all [run_in_environment]

/-- Shared concrete document for the dispatch witnesses. -/
def docW : PyCallableDocument Int where
  json := str "doc"
  to_callable := .ok (fun _ => .ok 7)

/-- Shared concrete worker runner for the dispatch witnesses. -/
def runnerW : WorkerRunner Int where
  run := fun _ _ _ => .ok 9

/-- Shared concrete arguments for the dispatch witnesses. -/
def argsW : Args := ⟨[], []⟩

/-- An environment that reports active. -/
def envActive : EnvBehavior :=
  ⟨.ok true, .ok false, .ok false, .ok [], .ok []⟩

/-- An environment that reports available but not active. -/
def envAvailable : EnvBehavior :=
  ⟨.ok false, .ok true, .ok false, .ok [str "python"], .ok []⟩

/-- An environment with only its manager available. -/
def envManager : EnvBehavior :=
  ⟨.ok false, .ok false, .ok true, .ok [], .ok []⟩

/-- An environment that is neither present nor creatable. -/
def envNone : EnvBehavior :=
  ⟨.ok false, .ok false, .ok false, .ok [], .ok []⟩

/-- Witness for C2 at the four concrete environments. -/
theorem claim_C2_witness :
    run_in_environment runnerW envActive docW argsW = (.ok 7, 0) ∧
    run_in_environment runnerW envAvailable docW argsW = (.ok 9, 1) ∧
    run_in_environment runnerW envManager docW argsW =
      (.error (.runtimeError notYetMsg), 0) ∧
    run_in_environment runnerW envNone docW argsW =
      (.error (.runtimeError neitherMsg), 0) :=
  ⟨(claim_C2 runnerW envActive docW argsW).1 _ rfl rfl,
   (claim_C2 runnerW envAvailable docW argsW).2.1 _ _ rfl rfl rfl rfl,
   (claim_C2 runnerW envManager docW argsW).2.2.1 rfl rfl rfl,
   (claim_C2 runnerW envNone docW argsW).2.2.2 rfl rfl rfl⟩

/-- A `PyObjectDocument` (packaging.py): JSON rendering, embedded
environment, and the behaviour of `unpackage` on it. -/
structure PyObjectDocument (α : Type) where
  json : Str
  environment : EnvBehavior
  unpackage : Except PyExc (Args → Except PyExc α)

/-- Message of the recursion-guard refusal. -/
def refuseMsg : Str :=
  str "Worker process did not detect the required environment. Refusing to run document."

/-- `run` (packaging.py): like `run_in_environment`, but between the
`is_active` check and the `is_available` check sits the `IS_WORKER_PROCESS`
recursion guard, a hard failure inside a worker. -/
def packaging_run {α : Type} (isWorkerProcess : Bool) (R : WorkerRunner α)
    (doc : PyObjectDocument α) (args : Args) : Except PyExc α × Nat :=
  match doc.environment.is_active with
  | .error e => (.error e, 0)
  | .ok true =>
    match doc.unpackage with
    | .error e => (.error e, 0)
    | .ok fn => (fn args, 0)
  | .ok false =>
    if isWorkerProcess then (.error (.runtimeError refuseMsg), 0)
    else
      match doc.environment.is_available with
      | .error e => (.error e, 0)
      | .ok true =>
        match doc.environment.python_command with
        | .error e => (.error e, 0)
        | .ok cmd =>
          match doc.environment.python_variables with
          | .error e => (.error e, 0)
          | .ok vars => (R.run cmd (doc.json, args) vars, 1)
      | .ok false =>
        match doc.environment.manager_available with
        | .error e => (.error e, 0)
        | .ok true => (.error (.runtimeError notYetMsg), 0)
        | .ok false => (.error (.runtimeError neitherMsg), 0)

/-- C3: inside a worker process (`IS_WORKER_PROCESS = True`), a dispatch
whose environment is not active (even one that is available, i.e. would
otherwise take the worker path) fails fast with the refusal error and spawns
no subprocess. -/
theorem claim_C3 {α : Type} (R : WorkerRunner α) (doc : PyObjectDocument α)
    (args : Args)
    (hactive : doc.environment.is_active = .ok false)
    (_havail : doc.environment.is_available = .ok true) :
    packaging_run true R doc args = (.error (.runtimeError refuseMsg), 0) := by
  simp [packaging_run, hactive]

/-- Concrete document for the C3 witness, in an available environment. -/
def doc3W : PyObjectDocument Int :=
  ⟨str "doc", envAvailable, .ok (fun _ => .ok 7)⟩

/-- Witness for C3 at the concrete instance. -/
theorem claim_C3_witness :
    packaging_run true runnerW doc3W argsW =
      (.error (.runtimeError refuseMsg), 0) :=
  claim_C3 runnerW doc3W argsW rfl rfl

-- Conda environment descriptor (packaging/environments.py) -----------------

/-- A `CondaEnvironment` descriptor.  `name` and `path` default to `None`;
the requirement lists are carried opaquely (no predicate reads them). -/
structure CondaEnvironment where
  python_version : Str
  requirements : List JsonValue
  name : Option Str
  path : Option Str
  conda_requirements : List JsonValue
  conda_executable : Str

/-- The machine state the conda predicates consult: `sys.executable`,
`os.sep`, `shutil.which`, the parsed output of
`conda env list --json` (`none` models a `CalledProcessError`), and
`Path.expanduser().resolve()`. -/
structure SysState where
  sysExecutable : Str
  osSep : Char
  which : Str → Option Str
  condaEnvList : Option JsonValue
  resolvePath : Str → Str

/-- Python truthiness of `self.name` (a `str`: the empty string is falsy). -/
def nameTruthy (e : CondaEnvironment) : Bool :=
  match e.name with
  | some s => !s.isEmpty
  | none => false

/-- Python truthiness of `self.path` (`Path` objects are always truthy). -/
def pathTruthy (e : CondaEnvironment) : Bool := e.path.isSome

/-- The missing-identifier `ValueError` message. -/
def eitherMsg : Str := str "Either name or path must be set."

/-- `str(p / "bin" / "python")`. -/
def joinBinPython (sep : Char) (p : Str) : Str :=
  p ++ sep :: str "bin" ++ sep :: str "python"

/-- `path.split(sep)[-1]`. -/
def lastComponent (sep : Char) (p : Str) : Str :=
  (p.reverse.takeWhile (fun c => c != sep)).reverse

/-- Extract all entries of a JSON list as strings (`none` when one is not a
string, where the comprehension's `.split` would raise `AttributeError`). -/
def allStrs : List JsonValue → Option (List Str)
  | [] => some []
  | .jStr s :: rest =>
    match allStrs rest with
    | some l => some (s :: l)
    | none => none
  | _ :: _ => none

/-- `CondaEnvironment.is_active`: by name, does `sys.executable` end with
`name/bin/python`; by path, does it equal the resolved `path/bin/python`;
else the missing-identifier error. -/
def CondaEnvironment.is_active (st : SysState) (e : CondaEnvironment) :
    Except PyExc Bool :=
  if nameTruthy e then
    .ok (List.isSuffixOf
      (e.name.getD [] ++ st.osSep :: str "bin" ++ st.osSep :: str "python")
      st.sysExecutable)
  else if pathTruthy e then
    .ok (st.sysExecutable ==
      joinBinPython st.osSep (st.resolvePath (e.path.getD [])))
  else .error (.valueError eitherMsg)

/-- `CondaEnvironment.is_available`: query `conda env list --json` (failure
raises `RuntimeError`), take its `envs` list, then membership by environment
name (last path component) or by resolved path; with neither set, the
missing-identifier error — raised only after the query. -/
def CondaEnvironment.is_available (st : SysState) (e : CondaEnvironment) :
    Except PyExc Bool :=
  match st.condaEnvList with
  | none =>
    .error (.runtimeError (str "Failed to check for conda environments on machine."))
  | some (.jObj kvs) =>
    match lookupD kvs (str "envs") with
    | none => .error (.keyError (str "envs"))
    | some (.jArr envPaths) =>
      if nameTruthy e then
        match allStrs envPaths with
        | none => .error (.attributeError (str "split"))
        | some paths =>
          .ok (paths.any (fun p => lastComponent st.osSep p == e.name.getD []))
      else if pathTruthy e then
        .ok (envPaths.any (fun j =>
          match j with
          | .jStr p => p == st.resolvePath (e.path.getD [])
          | _ => false))
      else .error (.valueError eitherMsg)
    | some _ => .error (.typeError (str "object is not iterable"))
  | some _ => .error (.typeError (str "object is not subscriptable"))

/-- `CondaEnvironment.manager_available`: is the conda executable on the
search path.  It never consults `name`/`path`. -/
def CondaEnvironment.manager_available (st : SysState) (e : CondaEnvironment) :
    Except PyExc Bool :=
  .ok (st.which e.conda_executable).isSome

/-- `CondaEnvironment.python_command`: `conda run --prefix <resolved path>`
or `conda run --name <name>` followed by `python`; with neither set, the
missing-identifier error.  (Unlike `is_active`, `path` is checked first.) -/
def CondaEnvironment.python_command (st : SysState) (e : CondaEnvironment) :
    Except PyExc (List Str) :=
  if pathTruthy e then
    .ok [e.conda_executable, str "run", str "--prefix",
      st.resolvePath (e.path.getD []), str "python"]
  else if nameTruthy e then
    .ok [e.conda_executable, str "run", str "--name", e.name.getD [],
      str "python"]
  else .error (.valueError eitherMsg)

/-- A conda descriptor with neither name nor path. -/
def e5 : CondaEnvironment :=
  ⟨str "3.10", [], none, none, [], str "conda"⟩

/-- A machine state where conda is installed and the env-list query
succeeds. -/
def st5 : SysState :=
  ⟨str "/usr/bin/python", '/', fun _ => some (str "/opt/conda/bin/conda"),
   some (.jObj [(str "envs", .jArr [])]), id⟩

/-- The same machine state with the env-list query failing. -/
def st5n : SysState :=
  ⟨str "/usr/bin/python", '/', fun _ => some (str "/opt/conda/bin/conda"),
   none, id⟩

/-- C5 counterexample: on a descriptor with neither `name` nor `path`,
`manager_available` does not raise the missing-identifier error — it
returns a boolean. -/
theorem claim_C5_counterexample :
    e5.name = none ∧ e5.path = none ∧
    CondaEnvironment.manager_available st5 e5 = .ok true :=
  ⟨rfl, rfl, rfl⟩

/-- C5 (amended): with neither `name` nor `path` set, `is_active` and
`python_command` raise the missing-identifier `ValueError`; `is_available`
raises it provided the conda env-list query succeeds with an `envs` list
(the query failure raising `RuntimeError` instead); `manager_available`
never checks the invariant and reports whether the conda executable is on
the search path. -/
theorem claim_C5_amended (st : SysState) (e : CondaEnvironment)
    (hname : e.name = none) (hpath : e.path = none) :
    CondaEnvironment.is_active st e = .error (.valueError eitherMsg) ∧
    CondaEnvironment.python_command st e = .error (.valueError eitherMsg) ∧
    (∀ kvs envPaths, st.condaEnvList = some (.jObj kvs) →
      lookupD kvs (str "envs") = some (.jArr envPaths) →
      CondaEnvironment.is_available st e = .error (.valueError eitherMsg)) ∧
    (st.condaEnvList = none →
      CondaEnvironment.is_available st e =
        .error (.runtimeError
          (str "Failed to check for conda environments on machine."))) ∧
    CondaEnvironment.manager_available st e =
      .ok (st.which e.conda_executable).isSome := by
  have hn : nameTruthy e = false := by simp [nameTruthy, hname]
  have hp : pathTruthy e = false := by simp [pathTruthy, hpath]
  refine ⟨?_, ?_, ?_, ?_, rfl⟩
  · simp [CondaEnvironment.is_active, hn, hp]
  · simp [CondaEnvironment.python_command, hn, hp]
  · intro kvs envPaths h1 h2
    simp [CondaEnvironment.is_available, h1, h2, hn, hp]
  · intro h1
    simp [CondaEnvironment.is_available, h1]

/-- Witness for the amended C5 at the concrete states. -/
theorem claim_C5_amended_witness :
    CondaEnvironment.is_active st5 e5 = .error (.valueError eitherMsg) ∧
    CondaEnvironment.python_command st5 e5 = .error (.valueError eitherMsg) ∧
    CondaEnvironment.is_available st5 e5 = .error (.valueError eitherMsg) ∧
    CondaEnvironment.is_available st5n e5 =
      .error (.runtimeError
        (str "Failed to check for conda environments on machine.")) ∧
    CondaEnvironment.manager_available st5 e5 = .ok true :=
  ⟨(claim_C5_amended st5 e5 rfl rfl).1,
   (claim_C5_amended st5 e5 rfl rfl).2.1,
   (claim_C5_amended st5 e5 rfl rfl).2.2.1 [(str "envs", .jArr [])] [] rfl rfl,
   (claim_C5_amended st5n e5 rfl rfl).2.2.2.1 rfl,
   (claim_C5_amended st5 e5 rfl rfl).2.2.2.2⟩

-- Environment detection (packaging/environments.py) ------------------------

/-- A `VenvEnvironment` descriptor (only its identifying path matters to
detection, which never produces one). -/
structure VenvEnvironment where
  path : Str

/-- A `BareEnvironment` descriptor. -/
structure BareEnvironment where
  python_version : Str
  requirements : List JsonValue

/-- The possible results of `detect_environment`. -/
inductive DetectedEnvironment where
  | conda (e : CondaEnvironment)
  | venv (v : VenvEnvironment)
  | bare (b : BareEnvironment)

/-- State consulted by detection: the parsed output of
`conda env export --json` (`none` models a `CalledProcessError`, caught and
turned into a null detection), `sys.executable`, `os.sep`, and
`python_version_minor()`. -/
structure DetectState where
  condaEnvExport : Option JsonValue
  sysExecutable : Str
  osSep : Char
  pythonVersionMinor : Str

/-- Python truthiness of a JSON value. -/
def jTruthy : JsonValue → Bool
  | .jNull => false
  | .jBool b => b
  | .jNum n => n != 0
  | .jStr s => !s.isEmpty
  | .jArr l => !l.isEmpty
  | .jObj l => !l.isEmpty

/-- The loop of `parse_conda_dependencies` over the `dependencies` entries:
dict entries holding a `pip` key contribute their pip list (a `pip` value
that is not a list is modelled as the `TypeError` its `extend` would raise),
dict entries without it are skipped, all other entries are conda
dependencies. -/
def depsFold : List JsonValue → Except PyExc (List JsonValue × List JsonValue)
  | [] => .ok ([], [])
  | .jObj kvs :: rest =>
    if (kvs.map Prod.fst).contains (str "pip") then
      match lookupD kvs (str "pip") with
      | some (.jArr l) =>
        match depsFold rest with
        | .ok (c, p) => .ok (c, l ++ p)
        | .error e => .error e
      | _ => .error (.typeError (str "object is not iterable"))
    else depsFold rest
  | d :: rest =>
    match depsFold rest with
    | .ok (c, p) => .ok (d :: c, p)
    | .error e => .error e

/-- `parse_conda_dependencies`: split `env_export["dependencies"]` into
conda and pip dependency lists. -/
def parse_conda_dependencies (envExport : JsonValue) :
    Except PyExc (List JsonValue × List JsonValue) :=
  match envExport with
  | .jObj kvs =>
    match lookupD kvs (str "dependencies") with
    | none => .error (.keyError (str "dependencies"))
    | some (.jArr deps) => depsFold deps
    | some _ => .error (.typeError (str "object is not iterable"))
  | _ => .error (.typeError (str "object is not subscriptable"))

/-- `detect_conda_environment`: null when the export query fails or reports
an `error` key or when the exported prefix is not the running interpreter;
otherwise build a descriptor, by name when the exported name is truthy (a
truthy non-string name would fail the descriptor's validation, modelled as
`TypeError`), else by path. -/
def detect_conda_environment (st : DetectState) (conda_executable : Str) :
    Except PyExc (Option CondaEnvironment) :=
  match st.condaEnvExport with
  | none => .ok none
  | some parsed =>
    match parsed with
    | .jObj kvs =>
      if (kvs.map Prod.fst).contains (str "error") then .ok none
      else
        match lookupD kvs (str "prefix") with
        | none => .error (.keyError (str "prefix"))
        | some activePathJ =>
          match lookupD kvs (str "name") with
          | none => .error (.keyError (str "name"))
          | some activeNameJ =>
            match activePathJ with
            | .jStr activePath =>
              if st.sysExecutable != joinBinPython st.osSep activePath then
                .ok none
              else
                match parse_conda_dependencies parsed with
                | .error e => .error e
                | .ok (condaReqs, pipReqs) =>
                  if jTruthy activeNameJ then
                    match activeNameJ with
                    | .jStr n =>
                      .ok (some ⟨st.pythonVersionMinor, pipReqs, some n, none,
                        condaReqs, conda_executable⟩)
                    | _ => .error (.typeError (str "invalid name"))
                  else
                    .ok (some ⟨st.pythonVersionMinor, pipReqs, none,
                      some activePath, condaReqs, conda_executable⟩)
            | _ => .error (.typeError (str "invalid prefix"))
    | _ => .error (.typeError (str "object is not subscriptable"))

/-- `detect_venv_environment`: venv detection is unimplemented — always
null. -/
def detect_venv_environment : Option VenvEnvironment := none

/-- `detect_bare_environment`: always produces a descriptor. -/
def detect_bare_environment (st : DetectState) : BareEnvironment :=
  ⟨st.pythonVersionMinor, []⟩

/-- `detect_environment`: `detect_conda_environment() or
detect_venv_environment() or detect_bare_environment()` — descriptors are
truthy objects, so the first non-null detector wins, in that order. -/
def detect_environment (st : DetectState) : Except PyExc DetectedEnvironment :=
  match detect_conda_environment st (str "conda") with
  | .error e => .error e
  | .ok (some c) => .ok (.conda c)
  | .ok none =>
    match detect_venv_environment with
    | some v => .ok (.venv v)
    | none => .ok (.bare (detect_bare_environment st))

/-- C4: detection is fixed priority conda, then virtualenv, then bare,
first non-null winning: whenever the conda detector produces a descriptor —
in particular in any state where the bare detector would also produce one,
which it always does — `detect_environment` returns the conda descriptor,
never the bare one; when conda detection is null the result falls through
(venv detection being unimplemented null) to the bare descriptor. -/
theorem claim_C4 (st : DetectState) :
    (∀ c, detect_conda_environment st (str "conda") = .ok (some c) →
      detect_environment st = .ok (.conda c)) ∧
    (detect_conda_environment st (str "conda") = .ok none →
      detect_environment st = .ok (.bare (detect_bare_environment st))) := by
  constructor
  · intro c hc
    simp [detect_environment, hc]
  · intro hc
    simp [detect_environment, hc, detect_venv_environment]

/-- A state in which the running interpreter is the exported conda
environment, named `base`. -/
def st4 : DetectState :=
  ⟨some (.jObj [(str "prefix", .jStr (str "/c")),
                (str "name", .jStr (str "base")),
                (str "dependencies", .jArr [])]),
   str "/c/bin/python", '/', str "3.10"⟩

/-- The same state with the conda export query failing. -/
def st4n : DetectState := ⟨none, str "/c/bin/python", '/', str "3.10"⟩

/-- Witness for C4 at the concrete states. -/
theorem claim_C4_witness :
    detect_environment st4 =
      .ok (.conda ⟨str "3.10", [], some (str "base"), none, [], str "conda"⟩) ∧
    detect_environment st4n = .ok (.bare ⟨str "3.10", []⟩) :=
  ⟨(claim_C4 st4).1 ⟨str "3.10", [], some (str "base"), none, [], str "conda"⟩
    rfl,
   (claim_C4 st4n).2 rfl⟩

-- Worker protocol (packaging/worker.py) ------------------------------------

/-- The `RETURN` status token as bytes. -/
def RETURN_TOKEN : Bytes := strToBytes (str "RETURN")

/-- The `EXCEPTION` status token as bytes. -/
def EXCEPTION_TOKEN : Bytes := strToBytes (str "EXCEPTION")

/-- The worker's external dependencies: decoding the request
(`DataDocument.parse_raw(request).decode()`, unpacked into the inner
document JSON and the call arguments), decoding the inner document to a
callable, `cloudpickle.dumps` of a return value, the formatted
`TracebackException` snapshot of an exception, and `cloudpickle.dumps` of an
(exception, snapshot) pair.  Each pickling step may itself raise. -/
structure WorkerLib (α : Type) where
  decodeRequest : Option Bytes → Except PyExc (Str × Args)
  decodeDocument : Str → Except PyExc (Args → Except PyExc α)
  pickleValue : α → Except PyExc Bytes
  formatTb : PyExc → Str
  picklePair : PyExc → Str → Except PyExc Bytes

/-- `pickle_exception`: pickle the exception together with its formatted
traceback snapshot (captured eagerly, because live tracebacks do not
pickle). -/
def pickle_exception {α : Type} (W : WorkerLib α) (e : PyExc) :
    Except PyExc Bytes :=
  W.picklePair e (W.formatTb e)

/-- The worker's two decode stages and the user call, with every failure
(`except BaseException`) captured: the value, or the captured exception. -/
def worker_stage {α : Type} (W : WorkerLib α) (request : Option Bytes) :
    Except PyExc α :=
  match W.decodeRequest request with
  | .error e => .error e
  | .ok (docJson, args) =>
    match W.decodeDocument docJson with
    | .error e => .error e
    | .ok fn => fn args

/-- The response-encoding stage: a captured exception is pickled with its
snapshot under `EXCEPTION`; a value is pickled under `RETURN`; when either
pickling raises, the failure is wrapped in a `PickleError` and that wrapper
is pickled under `EXCEPTION`.  A failure of the wrapper pickling itself
escapes uncaught. -/
def worker_response {α : Type} (W : WorkerLib α) (stage : Except PyExc α) :
    Except PyExc (Bytes × Bytes) :=
  match stage with
  | .error e =>
    match pickle_exception W e with
    | .ok r => .ok (EXCEPTION_TOKEN, r)
    | .error pe =>
      match pickle_exception W (.pickleError pe) with
      | .ok r => .ok (EXCEPTION_TOKEN, r)
      | .error e2 => .error e2
  | .ok v =>
    match W.pickleValue v with
    | .ok r => .ok (RETURN_TOKEN, r)
    | .error pe =>
      match pickle_exception W (.pickleError pe) with
      | .ok r => .ok (EXCEPTION_TOKEN, r)
      | .error e2 => .error e2

/-- `handle_worker_request`: run the stages, encode the tagged response, and
write to the original standard output the status token, a newline, and
`base64.encodebytes` of the pickled result, flushed.  The result is the
byte string written (`.error` when the final fallback pickling escapes, in
which case nothing is written). -/
def handle_worker_request {α : Type} (W : WorkerLib α)
    (request : Option Bytes) : Except PyExc Bytes :=
  match worker_response W (worker_stage W request) with
  | .error e => .error e
  | .ok (status, result) => .ok (status ++ 10 :: encodebytes result)

theorem worker_response_status {α : Type} (W : WorkerLib α)
    (stage : Except PyExc α) (status result : Bytes)
    (h : worker_response W stage = .ok (status, result)) :
    status = RETURN_TOKEN ∨ status = EXCEPTION_TOKEN := by
  unfold worker_response at h
  repeat' split at h
  all_goals simp_all

/-- C7 counterexample: a request whose return value pickles to 58 bytes
makes the worker write three newline-terminated lines, not two —
`base64.encodebytes` chunks the encoded result into 76-character lines. -/
theorem claim_C7_counterexample :
    handle_worker_request
        (WorkerLib.mk (fun _ => .ok (str "", ⟨[], []⟩))
          (fun _ => .ok (fun _ => .ok ()))
          (fun (_ : Unit) => .ok (List.replicate 58 0))
          (fun _ => []) (fun _ _ => .ok [0])) none =
      .ok (RETURN_TOKEN ++ 10 :: encodebytes (List.replicate 58 0)) ∧
    (RETURN_TOKEN ++ 10 :: encodebytes (List.replicate 58 0)).count 10 = 3 := by
  refine ⟨rfl, ?_⟩
  have hb : ∀ x ∈ List.replicate 58 (0 : Nat), x < 256 := by
    intro x hx
    have := List.eq_of_mem_replicate hx
    omega
  rw [List.count_append, List.count_cons, encodebytes_count _ hb]
  decide

/-- C7 (amended): for every worker request whose response encoding succeeds,
the bytes written to standard output are exactly a status token — RETURN or
EXCEPTION — one newline, and `base64.encodebytes` of the pickled result,
which occupies one newline-terminated 76-character line per 57 bytes; the
whole output is hence two lines exactly when the pickled result is at most
57 bytes, and longer results produce further lines.  The output is flushed;
the stream is closed at process exit, not explicitly. -/
theorem claim_C7_amended {α : Type} (W : WorkerLib α) (request : Option Bytes)
    (out : Bytes) (hout : handle_worker_request W request = .ok out) :
    ∃ status result,
      (status = RETURN_TOKEN ∨ status = EXCEPTION_TOKEN) ∧
      out = status ++ 10 :: encodebytes result ∧
      ((∀ x ∈ result, x < 256) →
        out.count 10 = 1 + (result.length + 56) / 57) := by
  unfold handle_worker_request at hout
  split at hout
  · exact absurd hout (by simp)
  case _ e status result heq =>
    refine ⟨status, result, worker_response_status W _ _ _ heq, ?_, ?_⟩
    · exact (Except.ok.injEq _ _ ▸ hout).symm ▸ rfl
    · intro hbytes
      have hstatus := worker_response_status W _ _ _ heq
      have hcount0 : status.count 10 = 0 := by
        rcases hstatus with rfl | rfl <;> decide
      have hout2 : out = status ++ 10 :: encodebytes result := by
        cases hout
        rfl
      rw [hout2, List.count_append, List.count_cons, hcount0,
        encodebytes_count _ hbytes]
      simp only [beq_self_eq_true, if_true]
      omega

/-- Witness for the amended C7 at a concrete request. -/
theorem claim_C7_amended_witness :
    ∃ status result,
      (status = RETURN_TOKEN ∨ status = EXCEPTION_TOKEN) ∧
      RETURN_TOKEN ++ 10 :: encodebytes [5] = status ++ 10 :: encodebytes result ∧
      ((∀ x ∈ result, x < 256) →
        (RETURN_TOKEN ++ 10 :: encodebytes [5]).count 10 =
          1 + (result.length + 56) / 57) :=
  claim_C7_amended
    (WorkerLib.mk (fun _ => .ok (str "", ⟨[], []⟩))
      (fun _ => .ok (fun _ => .ok ()))
      (fun (_ : Unit) => .ok [5])
      (fun _ => []) (fun _ _ => .ok [0])) none _ rfl

/-- C10: every stage failure — request decode, document decode, or the user
callable's invocation — is captured (the code catches `BaseException`, so
this covers every exception of the model, `SystemExit` and
`KeyboardInterrupt` included) and produces the tagged EXCEPTION response
carrying the pickled pair of the exception and its formatted traceback
snapshot, rather than terminating without a response. -/
theorem claim_C10 {α : Type} (W : WorkerLib α) (request : Option Bytes)
    (e : PyExc) (blob : Bytes)
    (hpickle : W.picklePair e (W.formatTb e) = .ok blob) :
    (W.decodeRequest request = .error e →
      handle_worker_request W request =
        .ok (EXCEPTION_TOKEN ++ 10 :: encodebytes blob)) ∧
    (∀ docJson args, W.decodeRequest request = .ok (docJson, args) →
      W.decodeDocument docJson = .error e →
      handle_worker_request W request =
        .ok (EXCEPTION_TOKEN ++ 10 :: encodebytes blob)) ∧
    (∀ docJson args fn, W.decodeRequest request = .ok (docJson, args) →
      W.decodeDocument docJson = .ok fn → fn args = .error e →
      handle_worker_request W request =
        .ok (EXCEPTION_TOKEN ++ 10 :: encodebytes blob)) := by
  refine ⟨?_, ?_, ?_⟩
  · intro h1
    simp [handle_worker_request, worker_stage, worker_response,
      pickle_exception, h1, hpickle]
  · intro docJson args h1 h2
    simp [handle_worker_request, worker_stage, worker_response,
      pickle_exception, h1, h2, hpickle]
  · intro docJson args fn h1 h2 h3
    simp [handle_worker_request, worker_stage, worker_response,
      pickle_exception, h1, h2, h3, hpickle]

/-- A concrete worker library whose stages raise `SystemExit` and
`KeyboardInterrupt` on selected inputs. -/
def c10Lib : WorkerLib Unit where
  decodeRequest := fun r =>
    if r = none then .error (.systemExit 1)
    else if r = some [1] then .ok (str "bad", ⟨[], []⟩)
    else .ok (str "good", ⟨[], []⟩)
  decodeDocument := fun dj =>
    if dj = str "bad" then .error .keyboardInterrupt
    else .ok (fun _ => .error (.systemExit 0))
  pickleValue := fun _ => .ok [0]
  formatTb := fun _ => str "tb"
  picklePair := fun _ _ => .ok [7]

/-- Witness for C10: all three stages, raising `SystemExit` or
`KeyboardInterrupt`, still produce the tagged EXCEPTION response. -/
theorem claim_C10_witness :
    handle_worker_request c10Lib none =
      .ok (EXCEPTION_TOKEN ++ 10 :: encodebytes [7]) ∧
    handle_worker_request c10Lib (some [1]) =
      .ok (EXCEPTION_TOKEN ++ 10 :: encodebytes [7]) ∧
    handle_worker_request c10Lib (some [2]) =
      .ok (EXCEPTION_TOKEN ++ 10 :: encodebytes [7]) :=
  ⟨(claim_C10 c10Lib none (.systemExit 1) [7] rfl).1 rfl,
   (claim_C10 c10Lib (some [1]) .keyboardInterrupt [7] rfl).2.1
     (str "bad") ⟨[], []⟩ rfl rfl,
   (claim_C10 c10Lib (some [2]) (.systemExit 0) [7] rfl).2.2
     (str "good") ⟨[], []⟩ (fun _ => .error (.systemExit 0)) rfl rfl rfl⟩

-- Worker startup registration (packaging/worker.py) -------------------------

/-- The worker startup registration loop: `REGISTER_PATHS =
os.environ.get("PREFECT_REGISTER_PATHS")` is a string (or absent); when
truthy the code runs `for path in REGISTER_PATHS` — iterating the
characters of the string — and calls `ImportSerializer.loads(path.encode())`
on each.  This definition returns the list of names handed to the import
decoder, in order. -/
def worker_startup_imports (envVar : Option Str) : List Str :=
  match envVar with
  | none => []
  | some s => if s.isEmpty then [] else s.map (fun c => [c])

/-- C8 (code behaviour at the failing input): with
`PREFECT_REGISTER_PATHS` set to `foo.bar`, worker startup attempts
importing each single character of the string — not the dotted name —
and with the variable absent it imports nothing. -/
theorem claim_C8_code_bug :
    worker_startup_imports (some (str "foo.bar")) =
      [str "f", str "o", str "o", str ".", str "b", str "a", str "r"] ∧
    worker_startup_imports (some (str "foo.bar")) ≠ [str "foo.bar"] ∧
    worker_startup_imports none = [] := by
  refine ⟨rfl, ?_, rfl⟩
  decide

end PrefectIntel
